import Mathlib

/-!
Shallow embedding of the `SupabaseClient` data-access layer
(`src/chatbot/grannymail/db/supaclient.py`) and verification of its
specified behaviour.

The remote relational store is modelled as a map from table names to lists
of rows; each client method is a Lean function that takes the store state
(and, where the source reads a clock, an explicit clock environment),
returns the Python return value as `Except Err _`, the updated store
state where the method writes, and the list of remote calls it issued, in
order.  Python exceptions become `Err` values carrying the exception class
and its arguments.  The entity classes of `grannymail.db.classes` are not
part of the sources; they are modelled from the spec as generic flat
records (see `Entity`).
-/

deriving instance DecidableEq for Except

namespace GrannyMail

/-- Modelled from the spec: the entity classes of `grannymail.db.classes`
(User, Message, File, Address, Draft, Order, Attachment, Changelog) are
missing from the sources.  Per the spec each is a flat record with a
declaration-ordered set of fields, any of which may be unpopulated
(Python `None`), and an ordered list `_unique_fields` of candidate lookup
keys.  Field values are modelled as strings. -/
structure Entity where
  fields : List (String × Option String)
  uniqueFields : List String
deriving DecidableEq

/-- Python `getattr(obj, k)`: the value of field `k`, `none` when the field
is unpopulated or absent. -/
def Entity.getattr (e : Entity) (k : String) : Option String :=
  match e.fields.lookup k with
  | some v => v
  | none => none

/-- Modelled from the spec: `AbstractDataTableClass.to_dict` (missing from
the sources) returns the populated fields only, since the spec says each
unique field "that is populated in the input is checked" via membership in
this dict, and inserts send it as the row payload. -/
def Entity.to_dict (e : Entity) : List (String × String) :=
  e.fields.filterMap (fun kv => kv.2.map (fun v => (kv.1, v)))

/-- Modelled from the spec: `find_different_fields` (missing from the
sources) "diffs field-by-field against the supplied update record" and
returns the fields of the update whose value differs from the stored
record; unpopulated fields of the update are not changes. -/
def Entity.find_different_fields (self other : Entity) : List String :=
  other.fields.filterMap (fun kv =>
    match kv.2 with
    | none => none
    | some v => if self.getattr kv.1 = some v then none else some kv.1)

/-- Python `Entity(**row)`: build an entity of a class with unique-field
list `unique` from a remote row, every field populated. -/
def Entity.fromRow (unique : List String) (row : List (String × String)) : Entity :=
  ⟨row.map (fun kv => (kv.1, some kv.2)), unique⟩

/-- A materialized remote row: column name to (non-null) value. -/
abbrev Row := List (String × String)

/-- The remote relational store: table name to list of rows, plus a counter
the modelled server uses to mint fresh identifiers. -/
structure DBState where
  tables : List (String × List Row)
  nextId : Nat
deriving DecidableEq

/-- The rows of table `t` (empty when the table is absent). -/
def DBState.rows (st : DBState) (t : String) : List Row :=
  (st.tables.lookup t).getD []

/-- Replace the row list of table `t` in an association list. -/
def updateAssoc (l : List (String × List Row)) (t : String) (rs : List Row) :
    List (String × List Row) :=
  match l with
  | [] => [(t, rs)]
  | (k, v) :: rest => if k = t then (k, rs) :: rest else (k, v) :: updateAssoc rest t rs

/-- Apply an SQL-style column update `data` to a row: listed columns take
the new value, the others keep theirs. -/
def mergeRow (row data : Row) : Row :=
  row.map (fun kv => (kv.1, (data.lookup kv.1).getD kv.2))

/-- One remote call issued by the client, in the order the source issues
them: table select / insert / update / delete, or a storage-bucket
upload. -/
inductive RemoteCall
  | select (table field : String) (value : Option String)
  | insert (table : String) (data : Row)
  | update (table : String) (data : Row) (field : String) (value : Option String)
  | delete (table field : String) (value : Option String)
  | storageUpload (path mime : String) (bytes : List Nat)
deriving DecidableEq

/-- The exceptions `supaclient.py` raises: `NoEntryFoundError(table, key,
data)`, `DuplicateEntryError()` (always with its default message), and
`ValueError(message)`.  The spec's error taxonomy maps onto these:
`NotFoundError` is `NoEntryFoundError`; `AmbiguousResultError`,
`InvalidInputError` and `UnsupportedMediaTypeError` are the `ValueError`
raise sites with the corresponding messages. -/
inductive Err
  | noEntryFound (table key : String) (value : Option String)
  | duplicateEntry
  | valueError (message : String)
deriving DecidableEq

/-- The Python exception class of an error. -/
def Err.pythonType : Err → String
  | .noEntryFound _ _ _ => "NoEntryFoundError"
  | .duplicateEntry => "DuplicateEntryError"
  | .valueError _ => "ValueError"

/-- Python str() of a field value as it appears inside f-string messages
(`None` for an unpopulated value). -/
def pyShow : Option String → String
  | some v => v
  | none => "None"

/-- The primary-identifier column of each table, assigned by the server on
insert.  `user_id`, `message_id`, `address_id` and `draft_id` appear
verbatim in the source; the rest follow the same naming scheme (spec: each
entity has "a primary identifier" assigned by the server). -/
def idField : String → String
  | "users" => "user_id"
  | "messages" => "message_id"
  | "files" => "file_id"
  | "addresses" => "address_id"
  | "drafts" => "draft_id"
  | "orders" => "order_id"
  | "attachments" => "attachment_id"
  | "changelog" => "changelog_id"
  | _ => "id"

/-- Remote `select * from t where field = value`.  A query value of `none`
models Python passing `None`, which matches no materialized row value. -/
def selectEq (st : DBState) (t field : String) (value : Option String) : List Row :=
  (st.rows t).filter (fun row => row.lookup field == value)

/-- Remote `insert`, returning the server-materialized row: the payload
plus a freshly minted primary identifier when the payload does not carry
one. -/
def insertRow (st : DBState) (t : String) (data : Row) : Row × DBState :=
  let idf := idField t
  let materialized :=
    if (data.lookup idf).isSome then data
    else data ++ [(idf, "srv-" ++ toString st.nextId)]
  (materialized, ⟨updateAssoc st.tables t (st.rows t ++ [materialized]), st.nextId + 1⟩)

/-- Remote `update t set data where field = value`. -/
def updateRows (st : DBState) (t : String) (data : Row) (field : String)
    (value : Option String) : DBState :=
  ⟨updateAssoc st.tables t
      ((st.rows t).map (fun row => if row.lookup field == value then mergeRow row data else row)),
    st.nextId⟩

/-- Remote `delete from t where field = value`, returning the deleted rows
(the `response.data` the source counts). -/
def deleteRows (st : DBState) (t field : String) (value : Option String) :
    List Row × DBState :=
  ((st.rows t).filter (fun row => row.lookup field == value),
    ⟨updateAssoc st.tables t ((st.rows t).filter (fun row => !(row.lookup field == value))),
      st.nextId⟩)

/-- A wall-clock reading to one-second precision, as consumed by the
`strftime` format the source uses. -/
structure DateTime where
  year : Nat
  month : Nat
  day : Nat
  hour : Nat
  minute : Nat
  second : Nat
deriving DecidableEq

/-- Zero-pad a number to two digits, as `strftime` does. -/
def pad2 (n : Nat) : String :=
  if n < 10 then "0" ++ toString n else toString n

/-- Zero-pad a year to four digits, as `strftime` does. -/
def pad4 (n : Nat) : String :=
  if n < 10 then "000" ++ toString n
  else if n < 100 then "00" ++ toString n
  else if n < 1000 then "0" ++ toString n
  else toString n

/-- Python `datetime.strftime("%Y-%m-%d_%H-%M-%S")`. -/
def DateTime.strftimeFile (d : DateTime) : String :=
  pad4 d.year ++ "-" ++ pad2 d.month ++ "-" ++ pad2 d.day ++ "_" ++
    pad2 d.hour ++ "-" ++ pad2 d.minute ++ "-" ++ pad2 d.second

/-- Python `str(datetime)` ("%Y-%m-%d %H:%M:%S"; sub-second digits are not
modelled). -/
def DateTime.pyStr (d : DateTime) : String :=
  pad4 d.year ++ "-" ++ pad2 d.month ++ "-" ++ pad2 d.day ++ " " ++
    pad2 d.hour ++ ":" ++ pad2 d.minute ++ ":" ++ pad2 d.second

/-- The clocks the source reads: `datetime.now()` (local time, used by
`upload_file`) and `datetime.utcnow()` (used by `update_user`).  Both are
inputs of the model; nothing ties them together. -/
structure Env where
  nowLocal : DateTime
  nowUtc : DateTime
deriving DecidableEq

/-! Client helper methods (`supaclient.py` lines 57-181). -/

/-- The unique fields of `data` present in `data.to_dict()` — the keys
`_check_duplicates` actually queries (source line 74: `if key in
data_dict.keys()`). -/
def checkedKeys (data : Entity) : List String :=
  data.uniqueFields.filter (fun k => ((data.to_dict).lookup k).isSome)

/-- Whether some populated unique field of `data` already has a matching
row in table `table` — the condition under which `_check_duplicates`
collects at least one duplicated key. -/
def hasDuplicate (st : DBState) (table : String) (data : Entity) : Bool :=
  (checkedKeys data).any (fun k => !(selectEq st table k ((data.to_dict).lookup k)).isEmpty)

/-- Python truthiness of the value callers bind to
`duplicates = self._check_duplicates(...)` (`None` or a list). -/
def pyTruthy : Option (List String) → Bool
  | none => false
  | some l => !l.isEmpty

/-- SupabaseClient._check_duplicates (source lines 57-84): for each unique
field present in `data.to_dict()`, select rows with that field value; if
any select is non-empty, raise `DuplicateEntryError`; otherwise fall off
the end, returning Python `None` (modelled as `Option.none`). -/
def _check_duplicates (st : DBState) (table : String) (data : Entity) :
    Except Err (Option (List String)) × List RemoteCall :=
  let keys := checkedKeys data
  let trace := keys.map (fun k => RemoteCall.select table k ((data.to_dict).lookup k))
  let duplicated := keys.filter (fun k => !(selectEq st table k ((data.to_dict).lookup k)).isEmpty)
  if duplicated.isEmpty then (.ok none, trace) else (.error .duplicateEntry, trace)

/-- SupabaseClient._validate_exactly_one_supabase_item (source lines
86-117).  The `isinstance(response, list)` guard always holds in the typed
model, so its `ValueError` branch is not represented. -/
def _validate_exactly_one_supabase_item (response : List Row) (table field_name : String)
    (field_value : Option String) : Except Err Unit :=
  if response.length ≠ 1 then
    if response.length = 0 then .error (.noEntryFound table field_name field_value)
    else .error (.valueError ("More than one user found with " ++ field_name ++ " " ++ pyShow field_value))
  else .ok ()

/-- The unique fields of `obj` with a populated value, in declaration
order (source lines 125-127). -/
def populatedUniqueFields (obj : Entity) : List String :=
  obj.uniqueFields.filter (fun f => (obj.getattr f).isSome)

/-- SupabaseClient._get_obj_info (source lines 119-144): reject an entity
with no populated unique field before any remote call; otherwise select on
the first populated unique field, validate exactly one row, return it.
The `isinstance` guard always holds in the typed model; the Python error
message interpolates `type(obj)`, which the untyped model elides.  The
final dead branch models the `IndexError` of `response[0]` on an empty
list, unreachable after validation. -/
def _get_obj_info (st : DBState) (table : String) (obj : Entity) :
    Except Err Row × List RemoteCall :=
  match populatedUniqueFields obj with
  | [] => (.error (.valueError "Object does not have any unique fields that can used to search for an entry"), [])
  | unique_field :: _ =>
    let v := obj.getattr unique_field
    let response := selectEq st table unique_field v
    match _validate_exactly_one_supabase_item response table unique_field v with
    | .error e => (.error e, [RemoteCall.select table unique_field v])
    | .ok _ =>
      match response with
      | r :: _ => (.ok r, [RemoteCall.select table unique_field v])
      | [] => (.error (.valueError "list index out of range"), [RemoteCall.select table unique_field v])

/-- SupabaseClient._delete_entry (source lines 146-181).  The table is an
explicit argument standing for `self.obj_to_table[type(obj)]`; the first
dead-looking branch models the `IndexError` of `obj._unique_fields[0]` on
an entity class with no unique fields.  When `deletion_key` is `none`, the
first unique field is used and must be populated; an explicitly supplied
key skips that check.  A delete that affects zero rows raises
`NoEntryFoundError` after the remote call.  `deleteByKey` is the shared
tail of the method — issue the delete filtered on the resolved key, count
the affected rows, raise on zero — and `_delete_entry` is its key
resolution. -/
def deleteByKey (st : DBState) (obj : Entity) (table : String) (k : String) :
    Except Err Nat × DBState × List RemoteCall :=
  let r := deleteRows st table k (obj.getattr k)
  let items_deleted := r.1.length
  if items_deleted = 0 then
    (.error (.noEntryFound table k (obj.getattr k)), r.2,
      [RemoteCall.delete table k (obj.getattr k)])
  else (.ok items_deleted, r.2, [RemoteCall.delete table k (obj.getattr k)])

/-- Key resolution of `SupabaseClient._delete_entry`: an explicit
`deletion_key` is used as given; otherwise the first declared unique field
is used and must be populated. -/
def _delete_entry (st : DBState) (obj : Entity) (table : String)
    (deletion_key : Option String) : Except Err Nat × DBState × List RemoteCall :=
  match deletion_key with
  | some k => deleteByKey st obj table k
  | none =>
    match obj.uniqueFields with
    | [] => (.error (.valueError "list index out of range"), st, [])
    | k :: _ =>
      if (obj.getattr k).isNone then
        (.error (.valueError ("Object does not have a value for " ++ k ++
          " that can be used for deletion and no alternative deletion key was provided using deletion_key")), st, [])
      else deleteByKey st obj table k

/-! Lookup methods (`get_user`, `get_message`, `get_file`, `get_draft`,
`get_order`; source lines 183-194, 254-265, 304-315, 468-469, 482-483). -/

/-- SupabaseClient.get_user (source lines 183-194):
`dbc.User(**self._get_obj_info("users", data))`. -/
def get_user (st : DBState) (data : Entity) : Except Err Entity × List RemoteCall :=
  match _get_obj_info st "users" data with
  | (.error e, tr) => (.error e, tr)
  | (.ok row, tr) => (.ok (Entity.fromRow data.uniqueFields row), tr)

/-- SupabaseClient.get_message (source lines 254-265). -/
def get_message (st : DBState) (message : Entity) : Except Err Entity × List RemoteCall :=
  match _get_obj_info st "messages" message with
  | (.error e, tr) => (.error e, tr)
  | (.ok row, tr) => (.ok (Entity.fromRow message.uniqueFields row), tr)

/-- SupabaseClient.get_file (source lines 304-315). -/
def get_file (st : DBState) (data : Entity) : Except Err Entity × List RemoteCall :=
  match _get_obj_info st "files" data with
  | (.error e, tr) => (.error e, tr)
  | (.ok row, tr) => (.ok (Entity.fromRow data.uniqueFields row), tr)

/-- SupabaseClient.get_draft (source lines 468-469). -/
def get_draft (st : DBState) (draft : Entity) : Except Err Entity × List RemoteCall :=
  match _get_obj_info st "drafts" draft with
  | (.error e, tr) => (.error e, tr)
  | (.ok row, tr) => (.ok (Entity.fromRow draft.uniqueFields row), tr)

/-- SupabaseClient.get_order (source lines 482-483): calls
`self._get_obj_info("orders", order)` and falls off the end, returning
Python `None` (modelled as `Unit`) — the fetched row is discarded. -/
def get_order (st : DBState) (order : Entity) : Except Err Unit × List RemoteCall :=
  match _get_obj_info st "orders" order with
  | (.error e, tr) => (.error e, tr)
  | (.ok _, tr) => (.ok (), tr)

/-! Insert, update, delete and storage methods. -/

/-- SupabaseClient.add_changelog (source lines 209-211): inserts the
changelog row and returns the fixed tuple. -/
def add_changelog (st : DBState) (changelog : Entity) :
    Except Err (Nat × String) × DBState × List RemoteCall :=
  let r := insertRow st "changelog" changelog.to_dict
  (.ok (0, "Changelog added successfully"), r.2, [RemoteCall.insert "changelog" changelog.to_dict])

/-- The `dbc.Changelog(...)` record built inside `update_user` (source
lines 228-236).  All modelled values are strings, so `column_type`
(`type(getattr(user_update, field)).__name__`) is the constant "str". -/
def mkChangelog (timestamp table_name : String) (row_id : Option String)
    (column_name : String) (old_value new_value : Option String) : Entity :=
  ⟨[("timestamp", some timestamp), ("table_name", some table_name), ("row_id", row_id),
    ("column_name", some column_name), ("column_type", some "str"),
    ("old_value", old_value), ("new_value", new_value)], []⟩

/-- The `for field in fields_updated` loop of `update_user` (source lines
227-237): one `add_changelog` insert per differing field, threading the
store state. -/
def writeChangelogs (env : Env) (full upd : Entity) :
    DBState → List String → DBState × List RemoteCall
  | st, [] => (st, [])
  | st, field :: rest =>
    let cl := mkChangelog env.nowUtc.pyStr "users" (full.getattr "user_id") field
      (full.getattr field) (upd.getattr field)
    let r := add_changelog st cl
    let r' := writeChangelogs env full upd r.2.1 rest
    (r'.1, r.2.2 ++ r'.2)

/-- SupabaseClient.update_user (source lines 213-242): fetch the full
record, diff, short-circuit with `(1, "No fields were updated")` when
nothing differs, otherwise write one changelog row per differing field and
then issue the update filtered on `user_id`. -/
def update_user (env : Env) (st : DBState) (user_data user_update : Entity) :
    Except Err (Nat × String) × DBState × List RemoteCall :=
  match get_user st user_data with
  | (.error e, tr) => (.error e, st, tr)
  | (.ok user_data_full, tr) =>
    let fields_updated := user_data_full.find_different_fields user_update
    if fields_updated.isEmpty then (.ok (1, "No fields were updated"), st, tr)
    else
      let r := writeChangelogs env user_data_full user_update st fields_updated
      let st2 := updateRows r.1 "users" user_update.to_dict "user_id"
        (user_data_full.getattr "user_id")
      (.ok (0, "User updated successfully"), st2,
        tr ++ r.2 ++ [RemoteCall.update "users" user_update.to_dict "user_id"
          (user_data_full.getattr "user_id")])

/-- SupabaseClient.update_message (source lines 290-302): fetch the full
record, then unconditionally issue the update filtered on `message_id` —
no diff, no changelog. -/
def update_message (st : DBState) (msg_data msg_update : Entity) :
    Except Err (Nat × String) × DBState × List RemoteCall :=
  match get_message st msg_data with
  | (.error e, tr) => (.error e, st, tr)
  | (.ok msg_data_full, tr) =>
    let st2 := updateRows st "messages" msg_update.to_dict "message_id"
      (msg_data_full.getattr "message_id")
    (.ok (0, "Message updated successfully"), st2,
      tr ++ [RemoteCall.update "messages" msg_update.to_dict "message_id"
        (msg_data_full.getattr "message_id")])

/-- SupabaseClient.add_user (source lines 196-207): duplicate check (which
raises on a duplicate), then the always-false `if duplicates:` test on the
bound `None`, then insert and return the materialized record. -/
def add_user (st : DBState) (user : Entity) :
    Except Err Entity × DBState × List RemoteCall :=
  match _check_duplicates st "users" user with
  | (.error e, tr) => (.error e, st, tr)
  | (.ok duplicates, tr) =>
    if pyTruthy duplicates then (.error .duplicateEntry, st, tr)
    else
      let r := insertRow st "users" user.to_dict
      (.ok (Entity.fromRow user.uniqueFields r.1), r.2, tr ++ [RemoteCall.insert "users" user.to_dict])

/-- SupabaseClient.add_message (source lines 280-288).  The source drops
`None` values from the returned row before rebuilding the message; rows in
this model are fully valued, so that filter is the identity. -/
def add_message (st : DBState) (msg_data : Entity) :
    Except Err Entity × DBState × List RemoteCall :=
  match _check_duplicates st "messages" msg_data with
  | (.error e, tr) => (.error e, st, tr)
  | (.ok duplicates, tr) =>
    if pyTruthy duplicates then (.error .duplicateEntry, st, tr)
    else
      let r := insertRow st "messages" msg_data.to_dict
      (.ok (Entity.fromRow msg_data.uniqueFields r.1), r.2,
        tr ++ [RemoteCall.insert "messages" msg_data.to_dict])

/-- SupabaseClient.add_file (source lines 317-324).  The
`assert len(response.data) == 1` always holds in the model (insert returns
one row). -/
def add_file (st : DBState) (file : Entity) :
    Except Err Entity × DBState × List RemoteCall :=
  match _check_duplicates st "files" file with
  | (.error e, tr) => (.error e, st, tr)
  | (.ok duplicates, tr) =>
    if pyTruthy duplicates then (.error .duplicateEntry, st, tr)
    else
      let r := insertRow st "files" file.to_dict
      (.ok (Entity.fromRow file.uniqueFields r.1), r.2,
        tr ++ [RemoteCall.insert "files" file.to_dict])

/-- SupabaseClient.add_address (source lines 342-347): requires a
populated `user_id`, then inserts — no duplicate check. -/
def add_address (st : DBState) (address : Entity) :
    Except Err Entity × DBState × List RemoteCall :=
  if (address.getattr "user_id").isNone then
    (.error (.valueError "Address does not have a user_id. Cannot add address"), st, [])
  else
    let r := insertRow st "addresses" address.to_dict
    (.ok (Entity.fromRow address.uniqueFields r.1), r.2,
      [RemoteCall.insert "addresses" address.to_dict])

/-- SupabaseClient.add_draft (source lines 384-388): inserts directly — no
duplicate check, no field validation. -/
def add_draft (st : DBState) (draft : Entity) :
    Except Err Entity × DBState × List RemoteCall :=
  let r := insertRow st "drafts" draft.to_dict
  (.ok (Entity.fromRow draft.uniqueFields r.1), r.2,
    [RemoteCall.insert "drafts" draft.to_dict])

/-- SupabaseClient.add_attachment (source lines 390-396): inserts directly
— no duplicate check. -/
def add_attachment (st : DBState) (attachment : Entity) :
    Except Err Entity × DBState × List RemoteCall :=
  let r := insertRow st "attachments" attachment.to_dict
  (.ok (Entity.fromRow attachment.uniqueFields r.1), r.2,
    [RemoteCall.insert "attachments" attachment.to_dict])

/-- The fields `add_order` requires to be populated (source line 472). -/
def requiredOrderFields : List String := ["user_id", "draft_id", "address_id", "blob_path"]

/-- SupabaseClient.add_order (source lines 471-480): validate required
fields, run the duplicate check (which raises on a duplicate), then the
`if duplicates:` branch on the bound `None` with its
`(1, "A existing user was already found with ...")` tuple, else insert and
return `(0, "Order added successfully")`. -/
def add_order (st : DBState) (order : Entity) :
    Except Err (Nat × String) × DBState × List RemoteCall :=
  match requiredOrderFields.find? (fun f => (order.getattr f).isNone) with
  | some f => (.error (.valueError ("Order does not have a " ++ f ++ ". Cannot add order")), st, [])
  | none =>
    match _check_duplicates st "orders" order with
    | (.error e, tr) => (.error e, st, tr)
    | (.ok duplicates, tr) =>
      if pyTruthy duplicates then
        (.ok (1, "A existing user was already found with " ++
          String.intercalate ", " (duplicates.getD [])), st, tr)
      else
        let r := insertRow st "orders" order.to_dict
        (.ok (0, "Order added successfully"), r.2, tr ++ [RemoteCall.insert "orders" order.to_dict])

/-- SupabaseClient.delete_user (source lines 244-252): fetch the full user
(raising through the lookup when absent), delete by `user_id` without
checking the affected count, and return the fixed tuple. -/
def delete_user (st : DBState) (user : Entity) :
    Except Err (Nat × String) × DBState × List RemoteCall :=
  match get_user st user with
  | (.error e, tr) => (.error e, st, tr)
  | (.ok user_full, tr) =>
    let r := deleteRows st "users" "user_id" (user_full.getattr "user_id")
    (.ok (0, "User deleted successfully"), r.2,
      tr ++ [RemoteCall.delete "users" "user_id" (user_full.getattr "user_id")])

/-- SupabaseClient.delete_address (source lines 349-360): requires a
populated `address_id`, deletes by it without checking the affected count,
and returns the fixed tuple. -/
def delete_address (st : DBState) (address : Entity) :
    Except Err (Nat × String) × DBState × List RemoteCall :=
  if (address.getattr "address_id").isNone then
    (.error (.valueError "Address does not have a address_id. Cannot delete address"), st, [])
  else
    let r := deleteRows st "addresses" "address_id" (address.getattr "address_id")
    (.ok (0, "Address deleted successfully"), r.2,
      [RemoteCall.delete "addresses" "address_id" (address.getattr "address_id")])

/-- SupabaseClient.upload_file (source lines 400-416): map the MIME type
to a suffix (raising `ValueError` for anything else, before any storage
call), build the bucket path from `datetime.now()` — the local clock — and
upload. -/
def upload_file (env : Env) (filebytes : List Nat) (user_id : String) (mime_type : String) :
    Except Err String × List RemoteCall :=
  let suffix : Except Err String :=
    if mime_type = "audio/ogg" then .ok ".ogg"
    else if mime_type = "application/pdf" then .ok ".pdf"
    else .error (.valueError ("mime_type " ++ mime_type ++ " not supported for file upload"))
  match suffix with
  | .error e => (.error e, [])
  | .ok sfx =>
    let bucket_path := "memos/" ++ user_id ++ "/" ++ env.nowLocal.strftimeFile ++ sfx
    (.ok bucket_path, [RemoteCall.storageUpload bucket_path mime_type filebytes])

/-! Trace observers and concrete fixtures. -/

/-- The number of insert calls into table `t` in a remote-call trace. -/
def countInserts (t : String) (tr : List RemoteCall) : Nat :=
  (tr.filter (fun c => match c with | .insert t' _ => t' == t | _ => false)).length

/-- The number of update calls in a remote-call trace. -/
def countUpdates (tr : List RemoteCall) : Nat :=
  (tr.filter (fun c => match c with | .update _ _ _ _ => true | _ => false)).length

/-- The number of storage-upload calls in a remote-call trace. -/
def countStorageUploads (tr : List RemoteCall) : Nat :=
  (tr.filter (fun c => match c with | .storageUpload _ _ _ => true | _ => false)).length

/-! Concrete fixtures used by witnesses and counterexamples.  Unique-field
lists follow the spec's data model (every entity has a primary identifier
and candidate lookup keys; `add_user`'s docstring names `email`,
`phone_number`, `telegram_id` for User). -/

/-- A stored user row. -/
def exUserRow : Row := [("user_id", "u1"), ("email", "a@example.com"), ("first_name", "Ann")]

/-- A store holding one user. -/
def exState : DBState := ⟨[("users", [exUserRow])], 0⟩

/-- A lookup entity populated only on its `email` unique field. -/
def exUserLookup : Entity :=
  ⟨[("user_id", none), ("email", some "a@example.com"), ("first_name", none)],
    ["user_id", "email"]⟩

/-- The full user record `get_user` yields for `exUserLookup` on `exState`. -/
def exUserFull : Entity := Entity.fromRow exUserLookup.uniqueFields exUserRow

/-- The lookup trace `get_user` issues for `exUserLookup`. -/
def exTraceUsers : List RemoteCall := [RemoteCall.select "users" "email" (some "a@example.com")]

/-- An update record differing from `exUserRow` in exactly one field. -/
def exUserUpdate : Entity :=
  ⟨[("user_id", none), ("email", some "a@example.com"), ("first_name", some "Bea")],
    ["user_id", "email"]⟩

/-- An update record field-for-field equal to `exUserRow` on its populated
fields. -/
def exUserSame : Entity := ⟨[("first_name", some "Ann")], ["user_id", "email"]⟩

/-- A user input whose populated unique field `email` collides with
`exUserRow`. -/
def exDupUser : Entity := ⟨[("email", some "a@example.com")], ["user_id", "email"]⟩

/-- A stored message row. -/
def exMsgRow : Row := [("message_id", "m1"), ("user_id", "u1"), ("message_body", "hi")]

/-- A store holding one message. -/
def exStateMsgs : DBState := ⟨[("messages", [exMsgRow])], 0⟩

/-- A lookup entity for `exMsgRow` by `message_id`. -/
def exMsgLookup : Entity := ⟨[("message_id", some "m1")], ["message_id"]⟩

/-- An update differing from `exMsgRow` in exactly one field. -/
def exMsgUpdate : Entity := ⟨[("message_body", some "yo")], ["message_id"]⟩

/-- An update field-for-field equal to `exMsgRow` on its populated fields. -/
def exMsgSame : Entity := ⟨[("message_body", some "hi")], ["message_id"]⟩

/-- A stored draft row. -/
def exDraftRow : Row := [("draft_id", "d1"), ("user_id", "u1")]

/-- A store holding one draft. -/
def exStateDrafts : DBState := ⟨[("drafts", [exDraftRow])], 0⟩

/-- A draft input whose populated unique field `draft_id` collides with
`exDraftRow`. -/
def exDraftDup : Entity := ⟨[("draft_id", some "d1"), ("user_id", some "u1")], ["draft_id"]⟩

/-- An order input with all required fields populated. -/
def exOrder : Entity :=
  ⟨[("user_id", some "u1"), ("draft_id", some "d1"), ("address_id", some "a1"),
    ("blob_path", some "p1")], ["order_id"]⟩

/-- A stored order row. -/
def exOrderRow : Row := [("order_id", "o1"), ("user_id", "u1")]

/-- A store holding one order. -/
def exStateOrders : DBState := ⟨[("orders", [exOrderRow])], 0⟩

/-- A lookup entity for `exOrderRow` by `order_id`. -/
def exOrderLookup : Entity := ⟨[("order_id", some "o1")], ["order_id"]⟩

/-- The empty store. -/
def stEmpty : DBState := ⟨[], 0⟩

/-- An address entity with a populated `address_id` matching no stored
row. -/
def exAddress : Entity := ⟨[("address_id", some "a9")], ["address_id"]⟩

/-- A stored address row matching `exAddress`. -/
def exAddrRow : Row := [("address_id", "a9"), ("user_id", "u1")]

/-- A store holding one address. -/
def exStateAddrs : DBState := ⟨[("addresses", [exAddrRow])], 0⟩

/-- A clock environment whose local and UTC readings differ (local
midnight, UTC eight o'clock). -/
def envEx : Env := ⟨⟨2024, 1, 1, 0, 0, 0⟩, ⟨2024, 1, 1, 8, 0, 0⟩⟩

/-- An entity whose unique field is declared but unpopulated. -/
def exNoUnique : Entity := ⟨[("email", none)], ["email"]⟩

/-! Theorems. -/

/-- Evaluation of `upload_file` on the `audio/ogg` branch. -/
theorem upload_file_ogg_eq (env : Env) (bytes : List Nat) (uid : String) :
    upload_file env bytes uid "audio/ogg" =
      (.ok ("memos/" ++ uid ++ "/" ++ env.nowLocal.strftimeFile ++ ".ogg"),
        [RemoteCall.storageUpload ("memos/" ++ uid ++ "/" ++ env.nowLocal.strftimeFile ++ ".ogg")
          "audio/ogg" bytes]) := rfl

/-- Evaluation of `upload_file` on the `application/pdf` branch. -/
theorem upload_file_pdf_eq (env : Env) (bytes : List Nat) (uid : String) :
    upload_file env bytes uid "application/pdf" =
      (.ok ("memos/" ++ uid ++ "/" ++ env.nowLocal.strftimeFile ++ ".pdf"),
        [RemoteCall.storageUpload ("memos/" ++ uid ++ "/" ++ env.nowLocal.strftimeFile ++ ".pdf")
          "application/pdf" bytes]) := rfl

/-- C6 counterexample: on a clock environment where local time (midnight)
and UTC (eight o'clock) differ, `upload_file` returns the path built from
the local reading, not the path `memos/<U>/<UTC timestamp>.<ext>` the
claim specifies — the source calls `datetime.now()`, not
`datetime.utcnow()`. -/
theorem C6_counterexample :
    (upload_file envEx [] "u1" "audio/ogg").1 = .ok "memos/u1/2024-01-01_00-00-00.ogg" ∧
    "memos/u1/2024-01-01_00-00-00.ogg" ≠
      "memos/" ++ "u1" ++ "/" ++ DateTime.strftimeFile envEx.nowUtc ++ ".ogg" := by
  exact ⟨rfl, by decide⟩

/-- C6 (amended): for every clock environment, byte payload and user
identifier `U`, `upload_file` with a supported MIME type returns exactly
the storage path `memos/<U>/<timestamp>.<ext>` where the timestamp is the
current LOCAL time formatted to one-second precision
(`%Y-%m-%d_%H-%M-%S`) and the extension is mapped from the MIME type, and
it uploads the payload to that path with that content type. -/
theorem C6_upload_path :
    (∀ (env : Env) (bytes : List Nat) (uid : String),
      upload_file env bytes uid "audio/ogg" =
        (.ok ("memos/" ++ uid ++ "/" ++ env.nowLocal.strftimeFile ++ ".ogg"),
          [RemoteCall.storageUpload ("memos/" ++ uid ++ "/" ++ env.nowLocal.strftimeFile ++ ".ogg")
            "audio/ogg" bytes])) ∧
    (∀ (env : Env) (bytes : List Nat) (uid : String),
      upload_file env bytes uid "application/pdf" =
        (.ok ("memos/" ++ uid ++ "/" ++ env.nowLocal.strftimeFile ++ ".pdf"),
          [RemoteCall.storageUpload ("memos/" ++ uid ++ "/" ++ env.nowLocal.strftimeFile ++ ".pdf")
            "application/pdf" bytes])) :=
  ⟨fun env bytes uid => upload_file_ogg_eq env bytes uid,
   fun env bytes uid => upload_file_pdf_eq env bytes uid⟩

/-- C7: `upload_file` with `audio/ogg` returns a path ending in `.ogg`,
with `application/pdf` a path ending in `.pdf`, and with any other MIME
type fails with the unsupported-media `ValueError` (the spec's
`UnsupportedMediaTypeError`) while issuing no storage call at all. -/
theorem C7_upload_mime_mapping :
    (∀ (env : Env) (bytes : List Nat) (uid : String),
      ∃ p, (upload_file env bytes uid "audio/ogg").1 = .ok (p ++ ".ogg")) ∧
    (∀ (env : Env) (bytes : List Nat) (uid : String),
      ∃ p, (upload_file env bytes uid "application/pdf").1 = .ok (p ++ ".pdf")) ∧
    (∀ (env : Env) (bytes : List Nat) (uid mime : String),
      mime ≠ "audio/ogg" → mime ≠ "application/pdf" →
      upload_file env bytes uid mime =
        (.error (.valueError ("mime_type " ++ mime ++ " not supported for file upload")), [])) := by
  refine ⟨fun env bytes uid => ⟨"memos/" ++ uid ++ "/" ++ env.nowLocal.strftimeFile, ?_⟩,
    fun env bytes uid => ⟨"memos/" ++ uid ++ "/" ++ env.nowLocal.strftimeFile, ?_⟩,
    fun env bytes uid mime h1 h2 => ?_⟩
  · rw [upload_file_ogg_eq]
  · rw [upload_file_pdf_eq]
  · simp only [upload_file]
    rw [if_neg h1, if_neg h2]

/-- C7 witness: `text/plain` is neither supported MIME type, and the
upload fails without a storage call on a concrete environment. -/
theorem C7_witness :
    ("text/plain" ≠ "audio/ogg") ∧ ("text/plain" ≠ "application/pdf") ∧
    upload_file envEx [] "u1" "text/plain" =
      (.error (.valueError ("mime_type " ++ "text/plain" ++ " not supported for file upload")), []) :=
  ⟨by decide, by decide,
    C7_upload_mime_mapping.2.2 envEx [] "u1" "text/plain" (by decide) (by decide)⟩

/-! Lemmas about the generic lookup `_get_obj_info`. -/

/-- With no populated unique field, `_get_obj_info` raises before any
remote call. -/
theorem getObjInfo_no_unique (st : DBState) (table : String) (e : Entity)
    (h : populatedUniqueFields e = []) :
    _get_obj_info st table e =
      (.error (.valueError "Object does not have any unique fields that can used to search for an entry"),
        []) := by
  simp only [_get_obj_info, h]

/-- With zero matching rows, `_get_obj_info` raises `NoEntryFoundError`
after its single select. -/
theorem getObjInfo_zero (st : DBState) (table : String) (e : Entity) (f : String)
    (rest : List String) (h : populatedUniqueFields e = f :: rest)
    (h0 : selectEq st table f (e.getattr f) = []) :
    _get_obj_info st table e =
      (.error (.noEntryFound table f (e.getattr f)), [RemoteCall.select table f (e.getattr f)]) := by
  simp [_get_obj_info, h, h0, _validate_exactly_one_supabase_item]

/-- With two or more matching rows, `_get_obj_info` raises the
more-than-one `ValueError` after its single select. -/
theorem getObjInfo_many (st : DBState) (table : String) (e : Entity) (f : String)
    (rest : List String) (r1 r2 : Row) (rs : List Row)
    (h : populatedUniqueFields e = f :: rest)
    (hm : selectEq st table f (e.getattr f) = r1 :: r2 :: rs) :
    _get_obj_info st table e =
      (.error (.valueError ("More than one user found with " ++ f ++ " " ++ pyShow (e.getattr f))),
        [RemoteCall.select table f (e.getattr f)]) := by
  simp [_get_obj_info, h, hm, _validate_exactly_one_supabase_item]

/-- With exactly one matching row, `_get_obj_info` returns it after its
single select. -/
theorem getObjInfo_one (st : DBState) (table : String) (e : Entity) (f : String)
    (rest : List String) (r : Row) (h : populatedUniqueFields e = f :: rest)
    (h1 : selectEq st table f (e.getattr f) = [r]) :
    _get_obj_info st table e = (.ok r, [RemoteCall.select table f (e.getattr f)]) := by
  simp [_get_obj_info, h, h1, _validate_exactly_one_supabase_item]

/-- Whatever the outcome, `_get_obj_info` with a populated unique field
issues exactly one remote call: the equality select on the first populated
unique field. -/
theorem getObjInfo_trace (st : DBState) (table : String) (e : Entity) (f : String)
    (rest : List String) (h : populatedUniqueFields e = f :: rest) :
    (_get_obj_info st table e).2 = [RemoteCall.select table f (e.getattr f)] := by
  simp only [_get_obj_info, h]
  cases hv : _validate_exactly_one_supabase_item (selectEq st table f (e.getattr f)) table f
      (e.getattr f) with
  | error err => simp [hv]
  | ok u =>
    cases hr : selectEq st table f (e.getattr f) with
    | nil => simp [hv, hr]
    | cons a as => simp [hv, hr]

/-- The trace of `_get_obj_info` contains no inserts and no updates. -/
theorem getObjInfo_trace_counts (st : DBState) (table : String) (e : Entity) :
    countInserts "changelog" (_get_obj_info st table e).2 = 0 ∧
    countUpdates (_get_obj_info st table e).2 = 0 := by
  cases h : populatedUniqueFields e with
  | nil => rw [getObjInfo_no_unique st table e h]; exact ⟨rfl, rfl⟩
  | cons f rest =>
    rw [getObjInfo_trace st table e f rest h]
    exact ⟨rfl, rfl⟩

/-! Transfer lemmas from `_get_obj_info` to the five lookup methods. -/

/-- Errors of the underlying lookup propagate through `get_user`. -/
theorem get_user_eq_error (st : DBState) (e : Entity) (err : Err) (tr : List RemoteCall)
    (h : _get_obj_info st "users" e = (.error err, tr)) : get_user st e = (.error err, tr) := by
  simp [get_user, h]

/-- A successful underlying lookup makes `get_user` return the merged
entity. -/
theorem get_user_eq_ok (st : DBState) (e : Entity) (row : Row) (tr : List RemoteCall)
    (h : _get_obj_info st "users" e = (.ok row, tr)) :
    get_user st e = (.ok (Entity.fromRow e.uniqueFields row), tr) := by
  simp [get_user, h]

/-- Errors of the underlying lookup propagate through `get_message`. -/
theorem get_message_eq_error (st : DBState) (e : Entity) (err : Err) (tr : List RemoteCall)
    (h : _get_obj_info st "messages" e = (.error err, tr)) :
    get_message st e = (.error err, tr) := by
  simp [get_message, h]

/-- A successful underlying lookup makes `get_message` return the merged
entity. -/
theorem get_message_eq_ok (st : DBState) (e : Entity) (row : Row) (tr : List RemoteCall)
    (h : _get_obj_info st "messages" e = (.ok row, tr)) :
    get_message st e = (.ok (Entity.fromRow e.uniqueFields row), tr) := by
  simp [get_message, h]

/-- Errors of the underlying lookup propagate through `get_file`. -/
theorem get_file_eq_error (st : DBState) (e : Entity) (err : Err) (tr : List RemoteCall)
    (h : _get_obj_info st "files" e = (.error err, tr)) : get_file st e = (.error err, tr) := by
  simp [get_file, h]

/-- Errors of the underlying lookup propagate through `get_draft`. -/
theorem get_draft_eq_error (st : DBState) (e : Entity) (err : Err) (tr : List RemoteCall)
    (h : _get_obj_info st "drafts" e = (.error err, tr)) : get_draft st e = (.error err, tr) := by
  simp [get_draft, h]

/-- Errors of the underlying lookup propagate through `get_order`. -/
theorem get_order_eq_error (st : DBState) (e : Entity) (err : Err) (tr : List RemoteCall)
    (h : _get_obj_info st "orders" e = (.error err, tr)) : get_order st e = (.error err, tr) := by
  simp [get_order, h]

/-- A successful underlying lookup makes `get_order` return Python `None`
(the row is discarded). -/
theorem get_order_eq_ok (st : DBState) (e : Entity) (row : Row) (tr : List RemoteCall)
    (h : _get_obj_info st "orders" e = (.ok row, tr)) : get_order st e = (.ok (), tr) := by
  simp [get_order, h]

/-- The trace of `get_user` is the trace of the underlying lookup. -/
theorem get_user_snd (st : DBState) (e : Entity) :
    (get_user st e).2 = (_get_obj_info st "users" e).2 := by
  rcases h : _get_obj_info st "users" e with ⟨res, tr⟩
  cases res with
  | error err => simp [get_user, h]
  | ok row => simp [get_user, h]

/-- The trace of `get_message` is the trace of the underlying lookup. -/
theorem get_message_snd (st : DBState) (e : Entity) :
    (get_message st e).2 = (_get_obj_info st "messages" e).2 := by
  rcases h : _get_obj_info st "messages" e with ⟨res, tr⟩
  cases res with
  | error err => simp [get_message, h]
  | ok row => simp [get_message, h]

/-- The trace of `get_file` is the trace of the underlying lookup. -/
theorem get_file_snd (st : DBState) (e : Entity) :
    (get_file st e).2 = (_get_obj_info st "files" e).2 := by
  rcases h : _get_obj_info st "files" e with ⟨res, tr⟩
  cases res with
  | error err => simp [get_file, h]
  | ok row => simp [get_file, h]

/-- The trace of `get_draft` is the trace of the underlying lookup. -/
theorem get_draft_snd (st : DBState) (e : Entity) :
    (get_draft st e).2 = (_get_obj_info st "drafts" e).2 := by
  rcases h : _get_obj_info st "drafts" e with ⟨res, tr⟩
  cases res with
  | error err => simp [get_draft, h]
  | ok row => simp [get_draft, h]

/-- The trace of `get_order` is the trace of the underlying lookup. -/
theorem get_order_snd (st : DBState) (e : Entity) :
    (get_order st e).2 = (_get_obj_info st "orders" e).2 := by
  rcases h : _get_obj_info st "orders" e with ⟨res, tr⟩
  cases res with
  | error err => simp [get_order, h]
  | ok row => simp [get_order, h]

/-- C3: every `get_<entity>` lookup (user, message, file, draft, order)
given an entity with at least one populated unique field fails with
`NoEntryFoundError` (the spec's `NotFoundError`) when zero rows match the
equality filter on the selected unique field, and with the more-than-one
`ValueError` (the spec's `AmbiguousResultError`) when more than one row
matches; the two errors are distinct Python exception classes. -/
theorem C3_get_error_taxonomy :
    (∀ (st : DBState) (e : Entity) (f : String) (rest : List String),
      populatedUniqueFields e = f :: rest →
      (selectEq st "users" f (e.getattr f) = [] →
        (get_user st e).1 = .error (.noEntryFound "users" f (e.getattr f))) ∧
      (∀ (r1 r2 : Row) (rs : List Row), selectEq st "users" f (e.getattr f) = r1 :: r2 :: rs →
        (get_user st e).1 =
          .error (.valueError ("More than one user found with " ++ f ++ " " ++ pyShow (e.getattr f))))) ∧
    (∀ (st : DBState) (e : Entity) (f : String) (rest : List String),
      populatedUniqueFields e = f :: rest →
      (selectEq st "messages" f (e.getattr f) = [] →
        (get_message st e).1 = .error (.noEntryFound "messages" f (e.getattr f))) ∧
      (∀ (r1 r2 : Row) (rs : List Row), selectEq st "messages" f (e.getattr f) = r1 :: r2 :: rs →
        (get_message st e).1 =
          .error (.valueError ("More than one user found with " ++ f ++ " " ++ pyShow (e.getattr f))))) ∧
    (∀ (st : DBState) (e : Entity) (f : String) (rest : List String),
      populatedUniqueFields e = f :: rest →
      (selectEq st "files" f (e.getattr f) = [] →
        (get_file st e).1 = .error (.noEntryFound "files" f (e.getattr f))) ∧
      (∀ (r1 r2 : Row) (rs : List Row), selectEq st "files" f (e.getattr f) = r1 :: r2 :: rs →
        (get_file st e).1 =
          .error (.valueError ("More than one user found with " ++ f ++ " " ++ pyShow (e.getattr f))))) ∧
    (∀ (st : DBState) (e : Entity) (f : String) (rest : List String),
      populatedUniqueFields e = f :: rest →
      (selectEq st "drafts" f (e.getattr f) = [] →
        (get_draft st e).1 = .error (.noEntryFound "drafts" f (e.getattr f))) ∧
      (∀ (r1 r2 : Row) (rs : List Row), selectEq st "drafts" f (e.getattr f) = r1 :: r2 :: rs →
        (get_draft st e).1 =
          .error (.valueError ("More than one user found with " ++ f ++ " " ++ pyShow (e.getattr f))))) ∧
    (∀ (st : DBState) (e : Entity) (f : String) (rest : List String),
      populatedUniqueFields e = f :: rest →
      (selectEq st "orders" f (e.getattr f) = [] →
        (get_order st e).1 = .error (.noEntryFound "orders" f (e.getattr f))) ∧
      (∀ (r1 r2 : Row) (rs : List Row), selectEq st "orders" f (e.getattr f) = r1 :: r2 :: rs →
        (get_order st e).1 =
          .error (.valueError ("More than one user found with " ++ f ++ " " ++ pyShow (e.getattr f))))) ∧
    (∀ (t k : String) (v : Option String) (m : String),
      Err.pythonType (.noEntryFound t k v) ≠ Err.pythonType (.valueError m)) := by
  refine ⟨?_, ?_, ?_, ?_, ?_, ?_⟩
  · intro st e f rest h
    exact ⟨fun h0 => by rw [get_user_eq_error st e _ _ (getObjInfo_zero st "users" e f rest h h0)],
      fun r1 r2 rs hm => by
        rw [get_user_eq_error st e _ _ (getObjInfo_many st "users" e f rest r1 r2 rs h hm)]⟩
  · intro st e f rest h
    exact ⟨fun h0 => by
        rw [get_message_eq_error st e _ _ (getObjInfo_zero st "messages" e f rest h h0)],
      fun r1 r2 rs hm => by
        rw [get_message_eq_error st e _ _ (getObjInfo_many st "messages" e f rest r1 r2 rs h hm)]⟩
  · intro st e f rest h
    exact ⟨fun h0 => by rw [get_file_eq_error st e _ _ (getObjInfo_zero st "files" e f rest h h0)],
      fun r1 r2 rs hm => by
        rw [get_file_eq_error st e _ _ (getObjInfo_many st "files" e f rest r1 r2 rs h hm)]⟩
  · intro st e f rest h
    exact ⟨fun h0 => by rw [get_draft_eq_error st e _ _ (getObjInfo_zero st "drafts" e f rest h h0)],
      fun r1 r2 rs hm => by
        rw [get_draft_eq_error st e _ _ (getObjInfo_many st "drafts" e f rest r1 r2 rs h hm)]⟩
  · intro st e f rest h
    exact ⟨fun h0 => by rw [get_order_eq_error st e _ _ (getObjInfo_zero st "orders" e f rest h h0)],
      fun r1 r2 rs hm => by
        rw [get_order_eq_error st e _ _ (getObjInfo_many st "orders" e f rest r1 r2 rs h hm)]⟩
  · intro t k v m
    simp [Err.pythonType]

/-- C3 witness: on the empty store, looking up a user by its populated
`email` unique field raises `NoEntryFoundError`. -/
theorem C3_witness :
    populatedUniqueFields exUserLookup = "email" :: [] ∧
    selectEq stEmpty "users" "email" (exUserLookup.getattr "email") = [] ∧
    (get_user stEmpty exUserLookup).1 =
      .error (.noEntryFound "users" "email" (exUserLookup.getattr "email")) :=
  ⟨by decide, rfl,
    (C3_get_error_taxonomy.1 stEmpty exUserLookup "email" [] (by decide)).1 rfl⟩

/-- C8: a lookup on an entity with at least one populated unique field
issues exactly one remote call — the equality select on the first
populated unique field in declaration order — and an entity with no
populated unique field is rejected with a `ValueError` before any remote
call; this behaviour transfers verbatim to each `get_<entity>` method,
whose remote traces equal the generic lookup's. -/
theorem C8_first_populated_unique_field :
    (∀ (st : DBState) (table : String) (e : Entity),
      populatedUniqueFields e = [] →
      _get_obj_info st table e =
        (.error (.valueError "Object does not have any unique fields that can used to search for an entry"),
          [])) ∧
    (∀ (st : DBState) (table : String) (e : Entity) (f : String) (rest : List String),
      populatedUniqueFields e = f :: rest →
      (_get_obj_info st table e).2 = [RemoteCall.select table f (e.getattr f)]) ∧
    (∀ (st : DBState) (e : Entity),
      (get_user st e).2 = (_get_obj_info st "users" e).2 ∧
      (get_message st e).2 = (_get_obj_info st "messages" e).2 ∧
      (get_file st e).2 = (_get_obj_info st "files" e).2 ∧
      (get_draft st e).2 = (_get_obj_info st "drafts" e).2 ∧
      (get_order st e).2 = (_get_obj_info st "orders" e).2) := by
  refine ⟨fun st table e h => getObjInfo_no_unique st table e h,
    fun st table e f rest h => getObjInfo_trace st table e f rest h,
    fun st e => ⟨get_user_snd st e, get_message_snd st e, get_file_snd st e,
      get_draft_snd st e, get_order_snd st e⟩⟩

/-- C8 witness: an entity whose declared unique field is unpopulated is
rejected with an empty trace, and a lookup entity whose first populated
unique field is `email` produces exactly the one select on `email`. -/
theorem C8_witness :
    populatedUniqueFields exNoUnique = [] ∧
    _get_obj_info stEmpty "users" exNoUnique =
      (.error (.valueError "Object does not have any unique fields that can used to search for an entry"),
        []) ∧
    populatedUniqueFields exUserLookup = "email" :: [] ∧
    (_get_obj_info exState "users" exUserLookup).2 =
      [RemoteCall.select "users" "email" (exUserLookup.getattr "email")] :=
  ⟨by decide, C8_first_populated_unique_field.1 stEmpty "users" exNoUnique (by decide),
    by decide, C8_first_populated_unique_field.2.1 exState "users" exUserLookup "email" [] (by decide)⟩

/-- C9: `get_order` performs the remote lookup and its exactly-one
validation (zero matches raise `NoEntryFoundError`, two or more raise the
more-than-one `ValueError`), but on the exactly-one case it discards the
fetched row and returns Python `None` — no input ever yields the stored
order record. -/
theorem C9_get_order_discards_row :
    (∀ (st : DBState) (o : Entity) (r : Unit), (get_order st o).1 = .ok r → r = ()) ∧
    (∀ (st : DBState) (o : Entity), (get_order st o).2 = (_get_obj_info st "orders" o).2) ∧
    (∀ (st : DBState) (o : Entity) (f : String) (rest : List String),
      populatedUniqueFields o = f :: rest →
      (∀ r : Row, selectEq st "orders" f (o.getattr f) = [r] →
        get_order st o = (.ok (), [RemoteCall.select "orders" f (o.getattr f)])) ∧
      (selectEq st "orders" f (o.getattr f) = [] →
        (get_order st o).1 = .error (.noEntryFound "orders" f (o.getattr f)))) := by
  refine ⟨fun st o r _ => rfl, fun st o => get_order_snd st o, fun st o f rest h => ⟨?_, ?_⟩⟩
  · intro r h1
    exact get_order_eq_ok st o r _ (getObjInfo_one st "orders" o f rest r h h1)
  · intro h0
    rw [get_order_eq_error st o _ _ (getObjInfo_zero st "orders" o f rest h h0)]

/-- C9 witness: with exactly one stored order matching `order_id`,
`get_order` performs the lookup and returns Python `None`, not the row. -/
theorem C9_witness :
    populatedUniqueFields exOrderLookup = "order_id" :: [] ∧
    selectEq exStateOrders "orders" "order_id" (exOrderLookup.getattr "order_id") = [exOrderRow] ∧
    get_order exStateOrders exOrderLookup =
      (.ok (), [RemoteCall.select "orders" "order_id" (exOrderLookup.getattr "order_id")]) :=
  ⟨by decide, rfl,
    ((C9_get_order_discards_row.2.2 exStateOrders exOrderLookup "order_id" [] (by decide)).1
      exOrderRow rfl)⟩

/-! General lemmas about association-list lookup and the modelled server
insert. -/

/-- Lookup distributes over append, preferring the left list. -/
theorem lookup_append {β : Type} (a : String) (l1 l2 : List (String × β)) :
    (l1 ++ l2).lookup a =
      match l1.lookup a with
      | some v => some v
      | none => l2.lookup a := by
  induction l1 with
  | nil => simp [List.lookup]
  | cons kv rest ih =>
    obtain ⟨k, v⟩ := kv
    simp only [List.cons_append, List.lookup]
    cases hka : a == k
    · simpa [hka] using ih
    · simp [hka]

/-- Lookup through the all-some mapping used by `Entity.fromRow`. -/
theorem lookup_map_some (k : String) (row : Row) :
    (row.map (fun kv => (kv.1, some kv.2))).lookup k = (row.lookup k).map some := by
  induction row with
  | nil => rfl
  | cons kv rest ih =>
    obtain ⟨a, b⟩ := kv
    simp only [List.map, List.lookup]
    cases hak : k == a
    · simpa [hak] using ih
    · simp [hak]

/-- A field of an entity rebuilt from a row is exactly the row's value for
that column. -/
theorem fromRow_getattr (u : List String) (row : Row) (k : String) :
    (Entity.fromRow u row).getattr k = row.lookup k := by
  unfold Entity.fromRow Entity.getattr
  rw [lookup_map_some]
  cases row.lookup k <;> rfl

/-- The row materialized by the modelled server always carries the
table's primary-identifier column. -/
theorem insertRow_fst_lookup_id (st : DBState) (t : String) (data : Row) :
    (((insertRow st t data).1).lookup (idField t)).isSome = true := by
  unfold insertRow
  cases hd : data.lookup (idField t) with
  | some v => simp [hd]
  | none => simp [hd, lookup_append, List.lookup]

/-! Lemmas about `_check_duplicates`. -/

/-- Emptiness of a filter is the negation of `any` for the same
predicate. -/
theorem filter_isEmpty_eq_not_any {α : Type} (p : α → Bool) (l : List α) :
    (l.filter p).isEmpty = !(l.any p) := by
  induction l with
  | nil => rfl
  | cons a as ih =>
    simp only [List.filter, List.any]
    cases hpa : p a
    · simpa [hpa] using ih
    · simp [hpa]

/-- With a colliding populated unique field, `_check_duplicates` raises
`DuplicateEntryError` after issuing its selects. -/
theorem check_duplicates_eq_true (st : DBState) (table : String) (data : Entity)
    (h : hasDuplicate st table data = true) :
    _check_duplicates st table data =
      (.error .duplicateEntry,
        (checkedKeys data).map (fun k => RemoteCall.select table k ((data.to_dict).lookup k))) := by
  simp only [_check_duplicates]
  rw [filter_isEmpty_eq_not_any]
  unfold hasDuplicate at h
  rw [h]
  rfl

/-- With no colliding populated unique field, `_check_duplicates` returns
Python `None` after issuing its selects. -/
theorem check_duplicates_eq_false (st : DBState) (table : String) (data : Entity)
    (h : hasDuplicate st table data = false) :
    _check_duplicates st table data =
      (.ok none,
        (checkedKeys data).map (fun k => RemoteCall.select table k ((data.to_dict).lookup k))) := by
  simp only [_check_duplicates]
  rw [filter_isEmpty_eq_not_any]
  unfold hasDuplicate at h
  rw [h]
  rfl

/-- Whenever `_check_duplicates` returns instead of raising, the returned
value is Python `None`. -/
theorem check_duplicates_ok_none (st : DBState) (table : String) (data : Entity)
    (v : Option (List String)) (tr : List RemoteCall)
    (h : _check_duplicates st table data = (.ok v, tr)) : v = none := by
  cases hd : hasDuplicate st table data
  · rw [check_duplicates_eq_false st table data hd] at h
    have := congrArg Prod.fst h
    simpa using this.symm
  · rw [check_duplicates_eq_true st table data hd] at h
    have := congrArg Prod.fst h
    simp at this

/-! Evaluation lemmas for the add methods. -/

/-- Evaluation of `add_user` on a duplicate input: the error is raised by
`_check_duplicates` before any insert, and the store is unchanged. -/
theorem add_user_dup (st : DBState) (u : Entity) (h : hasDuplicate st "users" u = true) :
    add_user st u = (.error .duplicateEntry, st,
      (checkedKeys u).map (fun k => RemoteCall.select "users" k ((u.to_dict).lookup k))) := by
  unfold add_user
  rw [check_duplicates_eq_true st "users" u h]

/-- Evaluation of `add_user` on a duplicate-free input: the payload is
inserted and the materialized record returned. -/
theorem add_user_nodup (st : DBState) (u : Entity) (h : hasDuplicate st "users" u = false) :
    add_user st u = (.ok (Entity.fromRow u.uniqueFields (insertRow st "users" u.to_dict).1),
      (insertRow st "users" u.to_dict).2,
      (checkedKeys u).map (fun k => RemoteCall.select "users" k ((u.to_dict).lookup k)) ++
        [RemoteCall.insert "users" u.to_dict]) := by
  unfold add_user
  rw [check_duplicates_eq_false st "users" u h]
  rfl

/-- Evaluation of `add_message` on a duplicate input. -/
theorem add_message_dup (st : DBState) (m : Entity) (h : hasDuplicate st "messages" m = true) :
    add_message st m = (.error .duplicateEntry, st,
      (checkedKeys m).map (fun k => RemoteCall.select "messages" k ((m.to_dict).lookup k))) := by
  unfold add_message
  rw [check_duplicates_eq_true st "messages" m h]

/-- Evaluation of `add_message` on a duplicate-free input. -/
theorem add_message_nodup (st : DBState) (m : Entity)
    (h : hasDuplicate st "messages" m = false) :
    add_message st m = (.ok (Entity.fromRow m.uniqueFields (insertRow st "messages" m.to_dict).1),
      (insertRow st "messages" m.to_dict).2,
      (checkedKeys m).map (fun k => RemoteCall.select "messages" k ((m.to_dict).lookup k)) ++
        [RemoteCall.insert "messages" m.to_dict]) := by
  unfold add_message
  rw [check_duplicates_eq_false st "messages" m h]
  rfl

/-- Evaluation of `add_file` on a duplicate input. -/
theorem add_file_dup (st : DBState) (f : Entity) (h : hasDuplicate st "files" f = true) :
    add_file st f = (.error .duplicateEntry, st,
      (checkedKeys f).map (fun k => RemoteCall.select "files" k ((f.to_dict).lookup k))) := by
  unfold add_file
  rw [check_duplicates_eq_true st "files" f h]

/-- Evaluation of `add_file` on a duplicate-free input. -/
theorem add_file_nodup (st : DBState) (f : Entity) (h : hasDuplicate st "files" f = false) :
    add_file st f = (.ok (Entity.fromRow f.uniqueFields (insertRow st "files" f.to_dict).1),
      (insertRow st "files" f.to_dict).2,
      (checkedKeys f).map (fun k => RemoteCall.select "files" k ((f.to_dict).lookup k)) ++
        [RemoteCall.insert "files" f.to_dict]) := by
  unfold add_file
  rw [check_duplicates_eq_false st "files" f h]
  rfl

/-- With all required order fields populated, the field scan of
`add_order` passes. -/
theorem add_order_no_missing (o : Entity)
    (hreq : ∀ f ∈ requiredOrderFields, (o.getattr f).isSome) :
    requiredOrderFields.find? (fun f => (o.getattr f).isNone) = none := by
  rw [List.find?_eq_none]
  intro x hx
  have hs := hreq x hx
  cases hgo : o.getattr x with
  | none => rw [hgo] at hs; exact absurd hs (by simp)
  | some v => simp [hgo]

/-- Evaluation of `add_order` on a duplicate input with all required
fields populated. -/
theorem add_order_dup (st : DBState) (o : Entity)
    (hreq : ∀ f ∈ requiredOrderFields, (o.getattr f).isSome)
    (h : hasDuplicate st "orders" o = true) :
    add_order st o = (.error .duplicateEntry, st,
      (checkedKeys o).map (fun k => RemoteCall.select "orders" k ((o.to_dict).lookup k))) := by
  unfold add_order
  rw [add_order_no_missing o hreq]
  rw [check_duplicates_eq_true st "orders" o h]

/-- Evaluation of `add_order` on a duplicate-free input with all required
fields populated. -/
theorem add_order_nodup (st : DBState) (o : Entity)
    (hreq : ∀ f ∈ requiredOrderFields, (o.getattr f).isSome)
    (h : hasDuplicate st "orders" o = false) :
    add_order st o = (.ok (0, "Order added successfully"), (insertRow st "orders" o.to_dict).2,
      (checkedKeys o).map (fun k => RemoteCall.select "orders" k ((o.to_dict).lookup k)) ++
        [RemoteCall.insert "orders" o.to_dict]) := by
  unfold add_order
  rw [add_order_no_missing o hreq]
  rw [check_duplicates_eq_false st "orders" o h]
  rfl

/-- C2 counterexample: `add_draft` performs no duplicate check — on a
store already holding a draft with `draft_id = "d1"`, adding a draft whose
populated unique field `draft_id` is `"d1"` succeeds instead of failing
with `DuplicateEntryError`; and a successful `add_order` returns the fixed
status tuple, not a record carrying a server-assigned identifier. -/
theorem C2_counterexample :
    hasDuplicate exStateDrafts "drafts" exDraftDup = true ∧
    (add_draft exStateDrafts exDraftDup).1 ≠ .error .duplicateEntry ∧
    add_order stEmpty exOrder =
      (.ok (0, "Order added successfully"), (insertRow stEmpty "orders" exOrder.to_dict).2,
        [RemoteCall.insert "orders" exOrder.to_dict]) := by
  refine ⟨by decide, by decide, by decide⟩

/-- C2 (amended): `add_user`, `add_message`, `add_file` and (given its
required fields) `add_order` fail with `DuplicateEntryError` iff some
populated unique field of the input already has a matching row; on that
failure the store is unchanged (no insert); a successful `add_user`,
`add_message`, `add_file` or `add_draft` returns the record with the
non-null server-assigned identifier, while a successful `add_order`
returns only the fixed status tuple; `add_draft`, `add_address` and
`add_attachment` never fail with `DuplicateEntryError`. -/
theorem C2_add_duplicate_contract :
    (∀ (st : DBState) (u : Entity),
      ((add_user st u).1 = .error .duplicateEntry ↔ hasDuplicate st "users" u = true) ∧
      ((add_user st u).1 = .error .duplicateEntry → (add_user st u).2.1 = st) ∧
      (∀ ent, (add_user st u).1 = .ok ent → (ent.getattr "user_id").isSome = true)) ∧
    (∀ (st : DBState) (m : Entity),
      ((add_message st m).1 = .error .duplicateEntry ↔ hasDuplicate st "messages" m = true) ∧
      ((add_message st m).1 = .error .duplicateEntry → (add_message st m).2.1 = st) ∧
      (∀ ent, (add_message st m).1 = .ok ent → (ent.getattr "message_id").isSome = true)) ∧
    (∀ (st : DBState) (f : Entity),
      ((add_file st f).1 = .error .duplicateEntry ↔ hasDuplicate st "files" f = true) ∧
      ((add_file st f).1 = .error .duplicateEntry → (add_file st f).2.1 = st) ∧
      (∀ ent, (add_file st f).1 = .ok ent → (ent.getattr "file_id").isSome = true)) ∧
    (∀ (st : DBState) (o : Entity), (∀ g ∈ requiredOrderFields, (o.getattr g).isSome) →
      ((add_order st o).1 = .error .duplicateEntry ↔ hasDuplicate st "orders" o = true) ∧
      ((add_order st o).1 = .error .duplicateEntry → (add_order st o).2.1 = st) ∧
      (∀ res, (add_order st o).1 = .ok res → res = (0, "Order added successfully"))) ∧
    (∀ (st : DBState) (d : Entity),
      (add_draft st d).1 ≠ .error .duplicateEntry ∧
      (∀ ent, (add_draft st d).1 = .ok ent → (ent.getattr "draft_id").isSome = true)) ∧
    (∀ (st : DBState) (a : Entity), (add_address st a).1 ≠ .error .duplicateEntry) ∧
    (∀ (st : DBState) (a : Entity), (add_attachment st a).1 ≠ .error .duplicateEntry) := by
  refine ⟨?_, ?_, ?_, ?_, ?_, ?_, ?_⟩
  · intro st u
    refine ⟨⟨fun he => ?_, fun hd => by rw [add_user_dup st u hd]⟩, fun he => ?_, fun ent he => ?_⟩
    · by_contra hd
      rw [add_user_nodup st u (Bool.eq_false_iff.mpr hd)] at he
      exact absurd he (by simp)
    · cases hd : hasDuplicate st "users" u
      · rw [add_user_nodup st u hd] at he; exact absurd he (by simp)
      · rw [add_user_dup st u hd]
    · cases hd : hasDuplicate st "users" u
      · rw [add_user_nodup st u hd] at he
        have hent : ent = Entity.fromRow u.uniqueFields (insertRow st "users" u.to_dict).1 := by
          simpa using he.symm
        rw [hent, fromRow_getattr]
        exact insertRow_fst_lookup_id st "users" u.to_dict
      · rw [add_user_dup st u hd] at he; exact absurd he (by simp)
  · intro st m
    refine ⟨⟨fun he => ?_, fun hd => by rw [add_message_dup st m hd]⟩, fun he => ?_,
      fun ent he => ?_⟩
    · by_contra hd
      rw [add_message_nodup st m (Bool.eq_false_iff.mpr hd)] at he
      exact absurd he (by simp)
    · cases hd : hasDuplicate st "messages" m
      · rw [add_message_nodup st m hd] at he; exact absurd he (by simp)
      · rw [add_message_dup st m hd]
    · cases hd : hasDuplicate st "messages" m
      · rw [add_message_nodup st m hd] at he
        have hent : ent = Entity.fromRow m.uniqueFields (insertRow st "messages" m.to_dict).1 := by
          simpa using he.symm
        rw [hent, fromRow_getattr]
        exact insertRow_fst_lookup_id st "messages" m.to_dict
      · rw [add_message_dup st m hd] at he; exact absurd he (by simp)
  · intro st f
    refine ⟨⟨fun he => ?_, fun hd => by rw [add_file_dup st f hd]⟩, fun he => ?_,
      fun ent he => ?_⟩
    · by_contra hd
      rw [add_file_nodup st f (Bool.eq_false_iff.mpr hd)] at he
      exact absurd he (by simp)
    · cases hd : hasDuplicate st "files" f
      · rw [add_file_nodup st f hd] at he; exact absurd he (by simp)
      · rw [add_file_dup st f hd]
    · cases hd : hasDuplicate st "files" f
      · rw [add_file_nodup st f hd] at he
        have hent : ent = Entity.fromRow f.uniqueFields (insertRow st "files" f.to_dict).1 := by
          simpa using he.symm
        rw [hent, fromRow_getattr]
        exact insertRow_fst_lookup_id st "files" f.to_dict
      · rw [add_file_dup st f hd] at he; exact absurd he (by simp)
  · intro st o hreq
    refine ⟨⟨fun he => ?_, fun hd => by rw [add_order_dup st o hreq hd]⟩, fun he => ?_,
      fun res he => ?_⟩
    · by_contra hd
      rw [add_order_nodup st o hreq (Bool.eq_false_iff.mpr hd)] at he
      exact absurd he (by simp)
    · cases hd : hasDuplicate st "orders" o
      · rw [add_order_nodup st o hreq hd] at he; exact absurd he (by simp)
      · rw [add_order_dup st o hreq hd]
    · cases hd : hasDuplicate st "orders" o
      · rw [add_order_nodup st o hreq hd] at he
        simpa using he.symm
      · rw [add_order_dup st o hreq hd] at he; exact absurd he (by simp)
  · intro st d
    constructor
    · intro he
      have : (add_draft st d).1 =
          .ok (Entity.fromRow d.uniqueFields (insertRow st "drafts" d.to_dict).1) := rfl
      rw [this] at he
      exact absurd he (by simp)
    · intro ent he
      have : (add_draft st d).1 =
          .ok (Entity.fromRow d.uniqueFields (insertRow st "drafts" d.to_dict).1) := rfl
      rw [this] at he
      have hent : ent = Entity.fromRow d.uniqueFields (insertRow st "drafts" d.to_dict).1 := by
        simpa using he.symm
      rw [hent, fromRow_getattr]
      exact insertRow_fst_lookup_id st "drafts" d.to_dict
  · intro st a he
    cases hid : (a.getattr "user_id").isNone
    · have : (add_address st a).1 =
          .ok (Entity.fromRow a.uniqueFields (insertRow st "addresses" a.to_dict).1) := by
        simp [add_address, hid]
      rw [this] at he
      exact absurd he (by simp)
    · have : (add_address st a).1 =
          .error (.valueError "Address does not have a user_id. Cannot add address") := by
        simp [add_address, hid]
      rw [this] at he
      exact absurd he (by simp)
  · intro st a he
    have : (add_attachment st a).1 =
        .ok (Entity.fromRow a.uniqueFields (insertRow st "attachments" a.to_dict).1) := rfl
    rw [this] at he
    exact absurd he (by simp)

/-- C2 witness: adding a user whose populated `email` unique field
collides with the stored user fails with `DuplicateEntryError`. -/
theorem C2_witness :
    hasDuplicate exState "users" exDupUser = true ∧
    (add_user exState exDupUser).1 = .error .duplicateEntry :=
  ⟨by decide, (C2_add_duplicate_contract.1 exState exDupUser).1.mpr (by decide)⟩

/-- C10: `_check_duplicates` either raises or returns Python `None`, so
the `if duplicates:` branches of its callers are unreachable; in
particular every successful `add_order` returns
`(0, "Order added successfully")` — the `(1, "A existing user was already
found with ...")` tuple is never returned. -/
theorem C10_check_duplicates_returns_none :
    (∀ (st : DBState) (table : String) (data : Entity) (v : Option (List String))
      (tr : List RemoteCall), _check_duplicates st table data = (.ok v, tr) → v = none) ∧
    (∀ (st : DBState) (o : Entity) (res : Nat × String) (st2 : DBState) (tr : List RemoteCall),
      add_order st o = (.ok res, st2, tr) → res = (0, "Order added successfully")) := by
  refine ⟨fun st table data v tr h => check_duplicates_ok_none st table data v tr h, ?_⟩
  intro st o res st2 tr h
  cases hf : requiredOrderFields.find? (fun f => (o.getattr f).isNone) with
  | some g =>
    unfold add_order at h
    rw [hf] at h
    exact absurd (congrArg (fun x => x.1) h) (by simp)
  | none =>
    unfold add_order at h
    rw [hf] at h
    cases hd : hasDuplicate st "orders" o
    · rw [check_duplicates_eq_false st "orders" o hd] at h
      have := congrArg (fun x => x.1) h
      simp [pyTruthy] at this
      exact this.symm
    · rw [check_duplicates_eq_true st "orders" o hd] at h
      exact absurd (congrArg (fun x => x.1) h) (by simp)

/-- C10 witness: a concrete successful `add_order` returns the fixed
success tuple. -/
theorem C10_witness :
    add_order stEmpty exOrder =
      (.ok (0, "Order added successfully"), (insertRow stEmpty "orders" exOrder.to_dict).2,
        [RemoteCall.insert "orders" exOrder.to_dict]) ∧
    ((0 : Nat), "Order added successfully") = ((0 : Nat), "Order added successfully") :=
  ⟨by decide,
    C10_check_duplicates_returns_none.2 stEmpty exOrder (0, "Order added successfully")
      (insertRow stEmpty "orders" exOrder.to_dict).2 [RemoteCall.insert "orders" exOrder.to_dict]
      (by decide)⟩

/-! Lemmas about `update_user`'s changelog loop and trace counting. -/

/-- The changelog loop issues exactly one changelog insert per differing
field, in field order, each carrying the changelog record built from the
stored and updated values. -/
theorem writeChangelogs_snd (env : Env) (full upd : Entity) (fs : List String) :
    ∀ st : DBState, (writeChangelogs env full upd st fs).2 =
      fs.map (fun f => RemoteCall.insert "changelog"
        (mkChangelog env.nowUtc.pyStr "users" (full.getattr "user_id") f
          (full.getattr f) (upd.getattr f)).to_dict) := by
  induction fs with
  | nil => intro st; rfl
  | cons f rest ih =>
    intro st
    simp only [writeChangelogs, add_changelog, List.map]
    rw [ih]
    rfl

/-- Insert counting distributes over trace concatenation. -/
theorem countInserts_append (t : String) (a b : List RemoteCall) :
    countInserts t (a ++ b) = countInserts t a + countInserts t b := by
  simp [countInserts, List.filter_append]

/-- Update counting distributes over trace concatenation. -/
theorem countUpdates_append (a b : List RemoteCall) :
    countUpdates (a ++ b) = countUpdates a + countUpdates b := by
  simp [countUpdates, List.filter_append]

/-- C1 counterexample: on a store holding one message, an update record
differing from the stored message in exactly one field (`message_body`)
makes `update_message` issue ZERO changelog inserts — not the one row per
differing field the claim specifies for every entity update operation. -/
theorem C1_counterexample :
    (Entity.fromRow exMsgLookup.uniqueFields exMsgRow).find_different_fields exMsgUpdate =
      ["message_body"] ∧
    (get_message exStateMsgs exMsgLookup).1 =
      .ok (Entity.fromRow exMsgLookup.uniqueFields exMsgRow) ∧
    countInserts "changelog" (update_message exStateMsgs exMsgLookup exMsgUpdate).2.2 = 0 ∧
    (update_message exStateMsgs exMsgLookup exMsgUpdate).1 =
      .ok (0, "Message updated successfully") := by
  refine ⟨by decide, by decide, by decide, by decide⟩

/-- C1 (amended): `update_user` with N differing fields appends exactly N
changelog rows — one insert per differing field, each recording the table
name, row identifier, column name, previous value, new value and a
timestamp — all issued before the primary update call; `update_message`,
by contrast, issues no changelog insert at all. -/
theorem C1_update_changelog :
    (∀ (env : Env) (st : DBState) (u uu full : Entity) (tr : List RemoteCall),
      get_user st u = (.ok full, tr) →
      full.find_different_fields uu ≠ [] →
      update_user env st u uu = (.ok (0, "User updated successfully"),
        updateRows (writeChangelogs env full uu st (full.find_different_fields uu)).1 "users"
          uu.to_dict "user_id" (full.getattr "user_id"),
        tr ++ (full.find_different_fields uu).map (fun f => RemoteCall.insert "changelog"
          (mkChangelog env.nowUtc.pyStr "users" (full.getattr "user_id") f
            (full.getattr f) (uu.getattr f)).to_dict) ++
          [RemoteCall.update "users" uu.to_dict "user_id" (full.getattr "user_id")])) ∧
    (∀ (st : DBState) (m mu : Entity),
      countInserts "changelog" (update_message st m mu).2.2 = 0) := by
  constructor
  · intro env st u uu full tr hget hne
    have hie : (full.find_different_fields uu).isEmpty = false := by
      cases hfd : full.find_different_fields uu with
      | nil => exact absurd hfd hne
      | cons a as => rfl
    unfold update_user
    rw [hget]
    simp only [hie, Bool.false_eq_true, if_false]
    rw [writeChangelogs_snd]
  · intro st m mu
    unfold update_message
    rcases hg : get_message st m with ⟨res, tr⟩
    have htr : countInserts "changelog" tr = 0 := by
      have h2 : (get_message st m).2 = tr := by rw [hg]
      rw [← h2, get_message_snd]
      exact (getObjInfo_trace_counts st "messages" m).1
    cases res with
    | error e => simpa using htr
    | ok full =>
      simp only []
      rw [countInserts_append, htr]
      rfl

/-- C1 witness: updating the stored user with a record differing in one
field produces exactly one changelog insert, issued before the update
call. -/
theorem C1_witness :
    get_user exState exUserLookup = (.ok exUserFull, exTraceUsers) ∧
    exUserFull.find_different_fields exUserUpdate = ["first_name"] ∧
    update_user envEx exState exUserLookup exUserUpdate = (.ok (0, "User updated successfully"),
      updateRows
        (writeChangelogs envEx exUserFull exUserUpdate exState
          (exUserFull.find_different_fields exUserUpdate)).1 "users"
        exUserUpdate.to_dict "user_id" (exUserFull.getattr "user_id"),
      exTraceUsers ++ (exUserFull.find_different_fields exUserUpdate).map
        (fun f => RemoteCall.insert "changelog"
          (mkChangelog envEx.nowUtc.pyStr "users" (exUserFull.getattr "user_id") f
            (exUserFull.getattr f) (exUserUpdate.getattr f)).to_dict) ++
        [RemoteCall.update "users" exUserUpdate.to_dict "user_id"
          (exUserFull.getattr "user_id")]) :=
  ⟨by decide, by decide,
    C1_update_changelog.1 envEx exState exUserLookup exUserUpdate exUserFull exTraceUsers
      (by decide) (by decide)⟩

/-- C5 counterexample: an update record field-for-field equal to the
stored message still makes `update_message` issue one update write and
return the "updated" result — not the zero-write, "no fields updated"
outcome the claim specifies for every entity update operation. -/
theorem C5_counterexample :
    (Entity.fromRow exMsgLookup.uniqueFields exMsgRow).find_different_fields exMsgSame = [] ∧
    countUpdates (update_message exStateMsgs exMsgLookup exMsgSame).2.2 = 1 ∧
    (update_message exStateMsgs exMsgLookup exMsgSame).1 =
      .ok (0, "Message updated successfully") := by
  refine ⟨by decide, by decide, by decide⟩

/-- C5 (amended): `update_user` with an update record field-for-field
equal to the stored record issues zero update writes and zero changelog
insertions (its trace is the lookup select only, and the store is
unchanged) and returns the distinct `(1, "No fields were updated")`
result; `update_message` always issues its update write and returns the
"updated" result regardless of whether any field differs. -/
theorem C5_noop_update :
    (∀ (env : Env) (st : DBState) (u uu full : Entity) (tr : List RemoteCall),
      get_user st u = (.ok full, tr) →
      full.find_different_fields uu = [] →
      update_user env st u uu = (.ok (1, "No fields were updated"), st, tr) ∧
      countInserts "changelog" tr = 0 ∧ countUpdates tr = 0) ∧
    (∀ (st : DBState) (m mu full : Entity) (tr : List RemoteCall),
      get_message st m = (.ok full, tr) →
      update_message st m mu = (.ok (0, "Message updated successfully"),
        updateRows st "messages" mu.to_dict "message_id" (full.getattr "message_id"),
        tr ++ [RemoteCall.update "messages" mu.to_dict "message_id"
          (full.getattr "message_id")])) := by
  constructor
  · intro env st u uu full tr hget hfd
    have htr : countInserts "changelog" tr = 0 ∧ countUpdates tr = 0 := by
      have h2 : (get_user st u).2 = tr := by rw [hget]
      constructor
      · rw [← h2, get_user_snd]
        exact (getObjInfo_trace_counts st "users" u).1
      · rw [← h2, get_user_snd]
        exact (getObjInfo_trace_counts st "users" u).2
    refine ⟨?_, htr.1, htr.2⟩
    unfold update_user
    rw [hget]
    simp only [hfd, List.isEmpty_nil, if_true]
  · intro st m mu full tr hget
    unfold update_message
    rw [hget]

/-- C5 witness: updating the stored user with a field-for-field equal
record is a no-op reported as "No fields were updated", with no insert or
update call in the trace. -/
theorem C5_witness :
    get_user exState exUserLookup = (.ok exUserFull, exTraceUsers) ∧
    exUserFull.find_different_fields exUserSame = [] ∧
    (update_user envEx exState exUserLookup exUserSame =
        (.ok (1, "No fields were updated"), exState, exTraceUsers) ∧
      countInserts "changelog" exTraceUsers = 0 ∧ countUpdates exTraceUsers = 0) :=
  ⟨by decide, by decide,
    C5_noop_update.1 envEx exState exUserLookup exUserSame exUserFull exTraceUsers
      (by decide) (by decide)⟩

/-! Lemmas about the delete methods. -/

/-- A successful `deleteByKey` affected at least one row. -/
theorem deleteByKey_ok_ge_one (st : DBState) (obj : Entity) (table k : String) (n : Nat)
    (st2 : DBState) (tr : List RemoteCall)
    (h : deleteByKey st obj table k = (.ok n, st2, tr)) : 1 ≤ n := by
  simp only [deleteByKey] at h
  by_cases hi : ((deleteRows st table k (obj.getattr k)).1).length = 0
  · rw [if_pos hi] at h
    exact absurd (congrArg (fun x => x.1) h) (by simp)
  · rw [if_neg hi] at h
    have h1 := congrArg (fun x => x.1) h
    simp only [Except.ok.injEq] at h1
    omega

/-- A `deleteByKey` that affects zero rows raises `NoEntryFoundError`
after issuing the delete call. -/
theorem deleteByKey_zero (st : DBState) (obj : Entity) (table k : String)
    (h0 : (deleteRows st table k (obj.getattr k)).1 = []) :
    deleteByKey st obj table k =
      (.error (.noEntryFound table k (obj.getattr k)),
        (deleteRows st table k (obj.getattr k)).2,
        [RemoteCall.delete table k (obj.getattr k)]) := by
  simp [deleteByKey, h0]

/-- C4 counterexample: deleting an address whose `address_id` matches no
stored row succeeds with the fixed status tuple — `delete_address` never
raises the `NoEntryFoundError` the claim specifies for every delete
operation whose target key matches no row. -/
theorem C4_counterexample :
    selectEq stEmpty "addresses" "address_id" (exAddress.getattr "address_id") = [] ∧
    (delete_address stEmpty exAddress).1 = .ok (0, "Address deleted successfully") := by
  refine ⟨by decide, by decide⟩

/-- C4 (amended): the generic `_delete_entry` raises `NoEntryFoundError`
when the delete affects zero rows (whether the key is the first unique
field or an explicit override) and otherwise returns an affected-row count
of at least 1; `delete_user` raises `NoEntryFoundError` only through its
lookup when no row matches its lookup key, and on success returns the
fixed status tuple `(0, "User deleted successfully")` without checking the
affected count; `delete_address` never fails for a missing row — given a
populated `address_id` it always returns its fixed status tuple. -/
theorem C4_delete_contract :
    (∀ (st : DBState) (obj : Entity) (table : String) (dk : Option String) (n : Nat)
      (st2 : DBState) (tr : List RemoteCall),
      _delete_entry st obj table dk = (.ok n, st2, tr) → 1 ≤ n) ∧
    (∀ (st : DBState) (obj : Entity) (table k : String) (rest : List String),
      obj.uniqueFields = k :: rest → (obj.getattr k).isSome →
      (deleteRows st table k (obj.getattr k)).1 = [] →
      (_delete_entry st obj table none).1 = .error (.noEntryFound table k (obj.getattr k))) ∧
    (∀ (st : DBState) (obj : Entity) (table k : String),
      (deleteRows st table k (obj.getattr k)).1 = [] →
      (_delete_entry st obj table (some k)).1 = .error (.noEntryFound table k (obj.getattr k))) ∧
    (∀ (st : DBState) (u : Entity) (f : String) (rest : List String),
      populatedUniqueFields u = f :: rest → selectEq st "users" f (u.getattr f) = [] →
      (delete_user st u).1 = .error (.noEntryFound "users" f (u.getattr f))) ∧
    (∀ (st : DBState) (u full : Entity) (tr : List RemoteCall),
      get_user st u = (.ok full, tr) →
      delete_user st u = (.ok (0, "User deleted successfully"),
        (deleteRows st "users" "user_id" (full.getattr "user_id")).2,
        tr ++ [RemoteCall.delete "users" "user_id" (full.getattr "user_id")])) ∧
    (∀ (st : DBState) (a : Entity), (a.getattr "address_id").isSome →
      delete_address st a = (.ok (0, "Address deleted successfully"),
        (deleteRows st "addresses" "address_id" (a.getattr "address_id")).2,
        [RemoteCall.delete "addresses" "address_id" (a.getattr "address_id")])) := by
  refine ⟨?_, ?_, ?_, ?_, ?_, ?_⟩
  · intro st obj table dk n st2 tr h
    cases dk with
    | some k =>
      simp only [_delete_entry] at h
      exact deleteByKey_ok_ge_one st obj table k n st2 tr h
    | none =>
      cases hu : obj.uniqueFields with
      | nil => simp [_delete_entry, hu] at h
      | cons k rest =>
        simp only [_delete_entry, hu] at h
        cases hp : (obj.getattr k).isNone with
        | true => rw [if_pos hp] at h; simp at h
        | false =>
          rw [if_neg (by rw [hp]; exact Bool.false_ne_true)] at h
          exact deleteByKey_ok_ge_one st obj table k n st2 tr h
  · intro st obj table k rest hu hp h0
    have hn : (obj.getattr k).isNone = false := by
      cases hgo : obj.getattr k
      · rw [hgo] at hp; exact absurd hp (by simp)
      · rfl
    simp only [_delete_entry, hu]
    rw [if_neg (by rw [hn]; exact Bool.false_ne_true)]
    rw [deleteByKey_zero st obj table k h0]
  · intro st obj table k h0
    simp only [_delete_entry]
    rw [deleteByKey_zero st obj table k h0]
  · intro st u f rest h h0
    unfold delete_user
    rw [get_user_eq_error st u _ _ (getObjInfo_zero st "users" u f rest h h0)]
  · intro st u full tr hget
    unfold delete_user
    rw [hget]
  · intro st a hs
    cases hgo : a.getattr "address_id" with
    | none => rw [hgo] at hs; exact absurd hs (by simp)
    | some v => simp [delete_address, hgo]

/-- C4 witness: deleting the stored address via `_delete_entry` affects
one row (count ≥ 1), and on the empty store the same delete raises
`NoEntryFoundError`. -/
theorem C4_witness :
    _delete_entry exStateAddrs exAddress "addresses" none =
      (.ok 1, (deleteRows exStateAddrs "addresses" "address_id"
        (exAddress.getattr "address_id")).2,
        [RemoteCall.delete "addresses" "address_id" (exAddress.getattr "address_id")]) ∧
    1 ≤ 1 ∧
    exAddress.uniqueFields = "address_id" :: [] ∧
    (deleteRows stEmpty "addresses" "address_id" (exAddress.getattr "address_id")).1 = [] ∧
    (_delete_entry stEmpty exAddress "addresses" none).1 =
      .error (.noEntryFound "addresses" "address_id" (exAddress.getattr "address_id")) :=
  ⟨by decide,
    C4_delete_contract.1 exStateAddrs exAddress "addresses" none 1
      (deleteRows exStateAddrs "addresses" "address_id" (exAddress.getattr "address_id")).2
      [RemoteCall.delete "addresses" "address_id" (exAddress.getattr "address_id")] (by decide),
    by decide, by decide,
    C4_delete_contract.2.1 stEmpty exAddress "addresses" "address_id" [] (by decide) (by decide)
      (by decide)⟩

end GrannyMail
